import Mathlib

/-!
Shallow embedding of the IPO analytics pipeline orchestrator
(`pipeline.py`, class `IPODataPipeline`).

The DuckDB store is modelled at the granularity the orchestrator observes:
a table either exists with some row count or does not exist.  A store is an
association list from table name to row count.  External effects (scraper
outcomes, CSV file states, SQL script files and their execution effect on
the store, the COPY export, the wall clock) are parameters of the model,
since the orchestrator treats them as opaque collaborators.
-/

namespace IPOPipeline

/-- The DuckDB store as the orchestrator observes it: table name ↦ row count. -/
abbrev Store := List (String × Nat)

/-- `DROP TABLE IF EXISTS t`. -/
def Store.drop (st : Store) (t : String) : Store :=
  st.filter (fun p => p.1 != t)

/-- `CREATE TABLE t AS ...` yielding `n` rows (run after the drop in the source). -/
def Store.create (st : Store) (t : String) (n : Nat) : Store :=
  (t, n) :: st

/-- `SELECT COUNT(*) FROM t`: `some n` when the table exists, `none` when the
query raises because the table is missing. -/
def Store.lookup (st : Store) (t : String) : Option Nat :=
  List.lookup t st

/-- Observable state of one CSV file in `data/raw` for the Load stage:
absent (`csv_path.exists()` false), present but the
`CREATE TABLE ... read_csv_auto` call raises, or readable with `n` rows. -/
inductive FileState
  | absent
  | unreadable
  | readable (rows : Nat)
deriving DecidableEq

def FileState.isReadable : FileState → Bool
  | .readable _ => true
  | _ => false

/-- The `csv_mappings` list of `stage_2_csv_to_raw_tables`. -/
def csvMappings : List (String × String) :=
  [("ipo_metadata.csv", "raw_past_ipo_table_1"),
   ("ipo_subscription.csv", "raw_pastipo_subscription_table_1"),
   ("tickertape_full_screener.csv", "raw_tickertape_data_1")]

/-- One iteration of the Load-stage `for` loop over `(csv_file, table_name)`:
skip when the file is absent, otherwise drop-then-create; any exception in
the body is caught, leaving the pair out of `loaded_tables`. -/
def stage2Step (fs : String → FileState) (acc : Store × List String)
    (p : String × String) : Store × List String :=
  match fs p.1 with
  | .absent => acc
  | .unreadable => (Store.drop acc.1 p.2, acc.2)
  | .readable n => (Store.create (Store.drop acc.1 p.2) p.2 n, acc.2 ++ [p.2])

/-- `stage_2_csv_to_raw_tables`: the loop over `csv_mappings`, then
`raise RuntimeError` exactly when `loaded_tables` is empty.  The error value
carries the store, whose mutations persist in the database file. -/
def stage_2_csv_to_raw_tables (fs : String → FileState) (st : Store) :
    Except Store (Store × List String) :=
  let r := csvMappings.foldl (stage2Step fs) (st, [])
  if r.2.isEmpty then .error r.1 else .ok r

/-- Python's `script_name.replace('.sql', '')` specialised to its literal
arguments: delete every (non-overlapping, left-to-right) occurrence of
`.sql` from the character list. -/
def dropSqlOccurrences : List Char → List Char
  | '.' :: 's' :: 'q' :: 'l' :: rest => dropSqlOccurrences rest
  | c :: cs => c :: dropSqlOccurrences cs
  | [] => []

/-- `script_name.replace('.sql', '')`, the table name the Transform stage
derives from a script name. -/
def sqlBaseName (s : String) : String :=
  ⟨dropSqlOccurrences s.data⟩

/-- The `transformation_scripts` list of `stage_3_data_cleaning`, in its
declared order. -/
def transformationScripts : List String :=
  ["stg_past_ipo_table.sql",
   "stg_pastipo_subscription_table.sql",
   "stg_tickertape_data_table.sql"]

/-- The external SQL collaborators: which script files exist under
`sql_transformations/`, and the effect of executing a script's text on the
store (`.error st` = the execution raised, leaving the store at `st`). -/
structure SqlEnv where
  scriptExists : String → Bool
  execSql : String → Store → Except Store Store

/-- One iteration of the Transform-stage `for` loop: skip a missing script;
execute the script text; on success query `COUNT(*)` on the table named
`script_name.replace('.sql','')` and append that name to
`processed_tables`; any exception in the body is caught. -/
def stage3Step (env : SqlEnv) (acc : Store × List String)
    (name : String) : Store × List String :=
  if env.scriptExists name then
    match env.execSql name acc.1 with
    | .error st => (st, acc.2)
    | .ok st =>
      match Store.lookup st (sqlBaseName name) with
      | none => (st, acc.2)
      | some _ => (st, acc.2 ++ [sqlBaseName name])
  else acc

/-- `stage_3_data_cleaning`: the loop over `transformation_scripts`, then
`raise RuntimeError` exactly when `processed_tables` is empty. -/
def stage_3_data_cleaning (env : SqlEnv) (st : Store) :
    Except Store (Store × List String) :=
  let r := transformationScripts.foldl (stage3Step env) (st, [])
  if r.2.isEmpty then .error r.1 else .ok r

/-- The mart script filename in `stage_4_create_analytics_mart`. -/
def martScriptName : String := "mart_ipo_analytics.sql"

/-- The table whose row count `stage_4_create_analytics_mart` reads back. -/
def martCountTable : String := "mart_ipo_analytics_1"

/-- `stage_4_create_analytics_mart`: inside one `try`, raise
`FileNotFoundError` when the script is missing, execute the script, and read
back `SELECT COUNT(*) FROM mart_ipo_analytics_1`; the `except` block logs
and re-raises every exception. -/
def stage_4_create_analytics_mart (env : SqlEnv) (st : Store) :
    Except Store Store :=
  if env.scriptExists martScriptName then
    match env.execSql martScriptName st with
    | .error st' => .error st'
    | .ok st' =>
      match Store.lookup st' martCountTable with
      | none => .error st'
      | some _ => .ok st'
  else .error st

/-- The wall clock as `export_results` consumes it:
`datetime.now().strftime('%Y%m%d')` reads only `date`. -/
structure Clock where
  date : String
  timeOfDay : String
deriving DecidableEq

/-- The staged-data directory `CONFIG['staged_data_dir']`. -/
def stagedDataDir : String := "data/staged"

/-- The export target path
`staged_dir / f"mart_ipo_analytics_{datetime.now().strftime('%Y%m%d')}.csv"`. -/
def exportPath (c : Clock) : String :=
  stagedDataDir ++ "/" ++ "mart_ipo_analytics_" ++ c.date ++ ".csv"

/-- `export_results`: compute the dated path, attempt the `COPY`; a write
error is logged and re-raised. -/
def export_results (copyOk : Bool) (c : Clock) : Except Unit String :=
  if copyOk then .ok (exportPath c) else .error ()

/-- The `scrapers` list of `stage_1_web_scraping` (source names). -/
def scraperNames : List String :=
  ["IPO Metadata", "IPO Subscription", "Tickertape Data"]

/-- Whether one scraper's `scrape()` + `save_to_csv` attempt raised. -/
def scrapeFails (r : Except Unit Nat) : Bool :=
  match r with
  | .error _ => true
  | .ok _ => false

/-- `stage_1_web_scraping`: each scraper runs inside a `try`; a failure is
caught and its source name appended to `failed_scrapers`.  The stage always
returns normally with the failed list. -/
def stage_1_web_scraping (scrape : String → Except Unit Nat) : List String :=
  scraperNames.foldl
    (fun failed name =>
      if scrapeFails (scrape name) then failed ++ [name] else failed) []

/-- Pipeline stages as entered by `run()`. -/
inductive Stage
  | extracting
  | loading
  | transforming
  | martBuilding
  | exporting
deriving DecidableEq

/-- The whole external environment one `run()` executes against. -/
structure Env where
  connectOk : Bool
  scrape : String → Except Unit Nat
  fileState : String → FileState
  sql : SqlEnv
  copyOk : Bool
  clock : Clock
  initStore : Store

/-- What a `run()` invocation observably did: whether it returned normally,
how many times the DuckDB connection was closed, which stages were entered,
and the final store contents. -/
structure RunResult where
  ok : Bool
  closeCount : Nat
  stagesRun : List Stage
  finalStore : Store
deriving DecidableEq

/-- `IPODataPipeline.run`: connect, run the five stages in order inside a
`try`, re-raise any exception, and in `finally` close the connection when
one was opened.  A failed `connect_duckdb` leaves `self.duckdb_conn` as
`None`, so the `finally` block then closes nothing. -/
def run (env : Env) : RunResult :=
  if env.connectOk then
    let _failed := stage_1_web_scraping env.scrape
    match stage_2_csv_to_raw_tables env.fileState env.initStore with
    | .error st => ⟨false, 1, [.extracting, .loading], st⟩
    | .ok (st, _) =>
      match stage_3_data_cleaning env.sql st with
      | .error st2 => ⟨false, 1, [.extracting, .loading, .transforming], st2⟩
      | .ok (st2, _) =>
        match stage_4_create_analytics_mart env.sql st2 with
        | .error st3 =>
          ⟨false, 1, [.extracting, .loading, .transforming, .martBuilding], st3⟩
        | .ok st3 =>
          match export_results env.copyOk env.clock with
          | .error _ =>
            ⟨false, 1,
             [.extracting, .loading, .transforming, .martBuilding, .exporting], st3⟩
          | .ok _ =>
            ⟨true, 1,
             [.extracting, .loading, .transforming, .martBuilding, .exporting], st3⟩
  else ⟨false, 0, [], env.initStore⟩

/-- The spec's naming rule, in the spec's words: a script's base identifier
is its filename with the `.sql` extension removed. -/
def stripSqlExt (s : String) : String :=
  if s.data.length ≥ 4 ∧ s.data.drop (s.data.length - 4) = ['.', 's', 'q', 'l']
  then ⟨s.data.take (s.data.length - 4)⟩ else s

/-- Whether a stage invocation raised (its result is an `Except.error`). -/
def raised {α β : Type} : Except α β → Bool
  | .error _ => true
  | .ok _ => false

/-
Concrete environments used by the witness and counterexample theorems.
-/

def c1Env : Env :=
  { connectOk := true
    scrape := fun _ => .error ()
    fileState := fun _ => FileState.absent
    sql := ⟨fun _ => false, fun _ s => .ok s⟩
    copyOk := false
    clock := ⟨"20260101", "000000"⟩
    initStore := [] }

def c2Fs : String → FileState := fun _ => FileState.absent

def c2Env : Env :=
  { connectOk := true
    scrape := fun _ => .ok 0
    fileState := c2Fs
    sql := ⟨fun _ => false, fun _ s => .ok s⟩
    copyOk := true
    clock := ⟨"20260101", "000000"⟩
    initStore := [] }

def c3Sql : SqlEnv := ⟨fun _ => false, fun _ s => .ok s⟩

def c4Env : Env :=
  { connectOk := true
    scrape := fun n => if n == "IPO Metadata" then .error () else .ok 2
    fileState := fun _ => FileState.readable 4
    sql := ⟨fun _ => false, fun _ s => .ok s⟩
    copyOk := true
    clock := ⟨"20260101", "000000"⟩
    initStore := [] }

def c5Sql : SqlEnv :=
  ⟨fun _ => true, fun _ _ => .ok [("mart_ipo_analytics", 5)]⟩

def c6Sql : SqlEnv := ⟨fun _ => false, fun _ s => .ok s⟩

def c7Fs : String → FileState :=
  fun f => if f == "ipo_metadata.csv" then FileState.readable 10 else FileState.absent

def c8Env : Env :=
  { connectOk := true
    scrape := fun _ => .ok 1
    fileState := fun _ => FileState.readable 3
    sql := ⟨fun _ => true, fun name s =>
      .ok (Store.create s
        (if name == martScriptName then martCountTable else sqlBaseName name) 7)⟩
    copyOk := false
    clock := ⟨"20260101", "093000"⟩
    initStore := [] }

def c9Fs : String → FileState := fun _ => FileState.unreadable

def c10Sql : SqlEnv :=
  ⟨fun _ => true, fun _ _ => .ok [("unrelated_table", 3)]⟩

/-
Helper lemmas about the store and the stage loops.
-/

lemma Store.lookup_create_same (st : Store) (t : String) (n : Nat) :
    Store.lookup (Store.create st t n) t = some n := by
  simp [Store.lookup, Store.create, List.lookup]

lemma Store.lookup_create_other (st : Store) (t t' : String) (n : Nat) (h : t' ≠ t) :
    Store.lookup (Store.create st t n) t' = Store.lookup st t' := by
  simp [Store.lookup, Store.create, List.lookup, beq_eq_false_iff_ne.mpr h]

lemma Store.lookup_drop_same (st : Store) (t : String) :
    Store.lookup (Store.drop st t) t = none := by
  induction st with
  | nil => rfl
  | cons p rest ih =>
    rcases p with ⟨k, v⟩
    by_cases hk : k = t
    · simpa [Store.drop, List.filter_cons, hk] using ih
    · simpa [Store.drop, List.filter_cons, hk, Store.lookup, List.lookup,
        beq_eq_false_iff_ne.mpr (Ne.symm hk)] using ih

lemma Store.lookup_drop_other (st : Store) (t t' : String) (h : t' ≠ t) :
    Store.lookup (Store.drop st t) t' = Store.lookup st t' := by
  induction st with
  | nil => rfl
  | cons p rest ih =>
    rcases p with ⟨k, v⟩
    by_cases hk : k = t
    · simpa [Store.drop, List.filter_cons, hk, Store.lookup, List.lookup,
        beq_eq_false_iff_ne.mpr h] using ih
    · by_cases hk' : t' = k
      · simp [Store.drop, List.filter_cons, hk, Store.lookup, List.lookup, hk']
      · simpa [Store.drop, List.filter_cons, hk, Store.lookup, List.lookup,
          beq_eq_false_iff_ne.mpr hk'] using ih

lemma stage1_foldl_failed (scrape : String → Except Unit Nat) (l : List String) :
    ∀ acc : List String,
    l.foldl (fun failed name =>
        if scrapeFails (scrape name) then failed ++ [name] else failed) acc =
      acc ++ l.filter (fun n => scrapeFails (scrape n)) := by
  induction l with
  | nil => intro acc; simp
  | cons name rest ih =>
    intro acc
    by_cases h : scrapeFails (scrape name) <;>
      simp [List.foldl_cons, List.filter_cons, h, ih]

lemma stage2_foldl_loaded (fs : String → FileState) (ms : List (String × String)) :
    ∀ (st : Store) (acc : List String),
    (ms.foldl (stage2Step fs) (st, acc)).2 =
      acc ++ (ms.filter (fun p => (fs p.1).isReadable)).map Prod.snd := by
  induction ms with
  | nil => intro st acc; simp
  | cons p rest ih =>
    intro st acc
    cases h : fs p.1 <;>
      simp [List.foldl_cons, stage2Step, h, FileState.isReadable, List.filter_cons, ih]

lemma stage2_error_iff (fs : String → FileState) (st : Store) :
    raised (stage_2_csv_to_raw_tables fs st) = true ↔
      ∀ p ∈ csvMappings, (fs p.1).isReadable = false := by
  simp only [stage_2_csv_to_raw_tables]
  split
  next hc =>
    simp only [stage2_foldl_loaded, List.nil_append, List.isEmpty_iff,
      List.map_eq_nil_iff, List.filter_eq_nil_iff] at hc
    simp only [raised, true_iff]
    intro p hp
    exact Bool.not_eq_true _ |>.mp (hc p hp)
  next hc =>
    simp only [stage2_foldl_loaded, List.nil_append, List.isEmpty_iff,
      List.map_eq_nil_iff, List.filter_eq_nil_iff] at hc
    simp only [raised, Bool.false_eq_true, false_iff]
    intro hall
    exact hc (fun p hp => by simp [hall p hp])

lemma stage2_lookup_final (fs : String → FileState) (st : Store)
    (p : String × String) (hp : p ∈ csvMappings) :
    Store.lookup (csvMappings.foldl (stage2Step fs) (st, [])).1 p.2 =
      match fs p.1 with
      | .readable n => some n
      | .unreadable => none
      | .absent => Store.lookup st p.2 := by
  have ne12 : ("raw_past_ipo_table_1" : String) ≠ "raw_pastipo_subscription_table_1" := by decide
  have ne13 : ("raw_past_ipo_table_1" : String) ≠ "raw_tickertape_data_1" := by decide
  have ne21 : ("raw_pastipo_subscription_table_1" : String) ≠ "raw_past_ipo_table_1" := by decide
  have ne23 : ("raw_pastipo_subscription_table_1" : String) ≠ "raw_tickertape_data_1" := by decide
  have ne31 : ("raw_tickertape_data_1" : String) ≠ "raw_past_ipo_table_1" := by decide
  have ne32 : ("raw_tickertape_data_1" : String) ≠ "raw_pastipo_subscription_table_1" := by decide
  fin_cases hp <;>
    cases h1 : fs "ipo_metadata.csv" <;>
    cases h2 : fs "ipo_subscription.csv" <;>
    cases h3 : fs "tickertape_full_screener.csv" <;>
      simp [csvMappings, List.foldl_cons, List.foldl_nil, stage2Step, h1, h2, h3,
        Store.lookup_create_same, Store.lookup_drop_same,
        Store.lookup_create_other _ _ _ _ ne12, Store.lookup_create_other _ _ _ _ ne13,
        Store.lookup_create_other _ _ _ _ ne21, Store.lookup_create_other _ _ _ _ ne23,
        Store.lookup_create_other _ _ _ _ ne31, Store.lookup_create_other _ _ _ _ ne32,
        Store.lookup_drop_other _ _ _ ne12, Store.lookup_drop_other _ _ _ ne13,
        Store.lookup_drop_other _ _ _ ne21, Store.lookup_drop_other _ _ _ ne23,
        Store.lookup_drop_other _ _ _ ne31, Store.lookup_drop_other _ _ _ ne32]

lemma stage3Step_skip_missing (env : SqlEnv) (acc : Store × List String)
    (name : String) (h : env.scriptExists name = false) :
    stage3Step env acc name = acc := by
  simp [stage3Step, h]

lemma stage3Step_snd_cases (env : SqlEnv) (st : Store) (acc : List String)
    (name : String) :
    (stage3Step env (st, acc) name).2 = acc ∨
    (stage3Step env (st, acc) name).2 = acc ++ [sqlBaseName name] := by
  by_cases hex : env.scriptExists name
  · rcases hsql : env.execSql name st with st' | st'
    · simp [stage3Step, hex, hsql]
    · rcases hlk : Store.lookup st' (sqlBaseName name) with _ | n <;>
        simp [stage3Step, hex, hsql, hlk]
  · simp [stage3Step, hex]

lemma stage3_foldl_sublist (env : SqlEnv) (scripts : List String) :
    ∀ (st : Store) (acc : List String),
    ∃ t, (scripts.foldl (stage3Step env) (st, acc)).2 = acc ++ t ∧
      t.Sublist (scripts.map sqlBaseName) := by
  induction scripts with
  | nil => intro st acc; exact ⟨[], by simp, List.Sublist.refl _⟩
  | cons name rest ih =>
    intro st acc
    rcases hstep : stage3Step env (st, acc) name with ⟨st1, acc1⟩
    have hsnd := stage3Step_snd_cases env st acc name
    rw [hstep] at hsnd
    rcases ih st1 acc1 with ⟨t, ht, hs⟩
    simp only at hsnd
    rcases hsnd with he | he
    · refine ⟨t, ?_, hs.cons _⟩
      rw [he] at ht
      rw [List.foldl_cons, hstep, he]
      exact ht
    · refine ⟨sqlBaseName name :: t, ?_, hs.cons₂ _⟩
      rw [he] at ht
      rw [List.foldl_cons, hstep, he, ht]
      simp

lemma stage3_error_iff (env : SqlEnv) (st : Store) :
    raised (stage_3_data_cleaning env st) = true ↔
      (transformationScripts.foldl (stage3Step env) (st, [])).2 = [] := by
  simp only [stage_3_data_cleaning]
  split
  next hc => simp [raised, List.isEmpty_iff.mp hc]
  next hc =>
    simp only [raised, Bool.false_eq_true, false_iff]
    intro h
    exact hc (by simp [h])

lemma stage3_raising_continues (env : SqlEnv) (name : String)
    (rest : List String) (st st' : Store) (acc : List String)
    (hex : env.scriptExists name = true) (hsql : env.execSql name st = .error st') :
    (name :: rest).foldl (stage3Step env) (st, acc) =
      rest.foldl (stage3Step env) (st', acc) := by
  simp [List.foldl_cons, stage3Step, hex, hsql]

lemma stage3Step_adds_iff (env : SqlEnv) (st : Store) (acc : List String)
    (name : String) :
    (stage3Step env (st, acc) name).2 = acc ++ [sqlBaseName name] ↔
      env.scriptExists name = true ∧
      ∃ st', env.execSql name st = .ok st' ∧
        (Store.lookup st' (sqlBaseName name)).isSome = true := by
  constructor
  · intro h
    by_cases hex : env.scriptExists name
    · rcases hsql : env.execSql name st with st' | st'
      · simp [stage3Step, hex, hsql] at h
      · rcases hlk : Store.lookup st' (sqlBaseName name) with _ | n
        · simp [stage3Step, hex, hsql, hlk] at h
        · exact ⟨hex, st', rfl, by simp [hlk]⟩
    · simp [stage3Step, hex] at h
  · rintro ⟨hex, st', hsql, hlk⟩
    rcases hv : Store.lookup st' (sqlBaseName name) with _ | n
    · rw [hv] at hlk; simp at hlk
    · simp [stage3Step, hex, hsql, hv]

lemma stage3_all_tableless (env : SqlEnv) (scripts : List String)
    (h : ∀ nm ∈ scripts, ∀ s s', env.execSql nm s = .ok s' →
      Store.lookup s' (sqlBaseName nm) = none) :
    ∀ (st : Store) (acc : List String),
    (scripts.foldl (stage3Step env) (st, acc)).2 = acc := by
  induction scripts with
  | nil => intro st acc; rfl
  | cons name rest ih =>
    intro st acc
    have hstep : (stage3Step env (st, acc) name).2 = acc := by
      by_cases hex : env.scriptExists name
      · rcases hsql : env.execSql name st with st' | st'
        · simp [stage3Step, hex, hsql]
        · simp [stage3Step, hex, hsql, h name (by simp) st st' hsql]
      · simp [stage3Step, hex]
    rcases hs : stage3Step env (st, acc) name with ⟨st1, acc1⟩
    rw [hs] at hstep
    simp only at hstep
    simp only [List.foldl_cons, hs, hstep]
    exact ih (fun nm hnm => h nm (List.mem_cons_of_mem _ hnm)) st1 acc

/-- C1: whenever the DuckDB connection is established, `run()` closes it
exactly once, on every exit path (normal completion or a fatal error in any
later stage). -/
theorem C1_connection_closed_exactly_once (env : Env) (h : env.connectOk = true) :
    (run env).closeCount = 1 := by
  simp only [run, h, if_true]
  split
  · rfl
  · split
    · rfl
    · split
      · rfl
      · split <;> rfl

theorem C1_connection_closed_exactly_once_witness :
    (run c1Env).closeCount = 1 :=
  C1_connection_closed_exactly_once c1Env rfl

/-- C2: in the Load stage each failing pair is excluded while the rest are
processed (`loaded_tables` is exactly the readable pairs' tables), the stage
raises iff the loaded set is empty, and with all three files absent the run
fails fatally before the Transform stage. -/
theorem C2_load_isolation_and_fatality (fs : String → FileState) (st : Store) :
    ((csvMappings.foldl (stage2Step fs) (st, [])).2 =
       (csvMappings.filter (fun p => (fs p.1).isReadable)).map Prod.snd) ∧
    (raised (stage_2_csv_to_raw_tables fs st) = true ↔
       ∀ p ∈ csvMappings, (fs p.1).isReadable = false) ∧
    (∀ env : Env, env.connectOk = true →
       (∀ p ∈ csvMappings, env.fileState p.1 = FileState.absent) →
       (run env).ok = false ∧ Stage.transforming ∉ (run env).stagesRun) := by
  refine ⟨by simpa using stage2_foldl_loaded fs csvMappings st [],
    stage2_error_iff fs st, ?_⟩
  intro env hc hall
  have hr : raised (stage_2_csv_to_raw_tables env.fileState env.initStore) = true :=
    (stage2_error_iff _ _).mpr (fun p hp => by rw [hall p hp]; rfl)
  rcases he : stage_2_csv_to_raw_tables env.fileState env.initStore with e | r
  · constructor
    · simp [run, hc, he]
    · simp [run, hc, he]
  · rw [he] at hr
    simp [raised] at hr

theorem C2_load_isolation_and_fatality_witness :
    raised (stage_2_csv_to_raw_tables c2Fs []) = true ∧
    (run c2Env).ok = false ∧ Stage.transforming ∉ (run c2Env).stagesRun := by
  have h := C2_load_isolation_and_fatality c2Fs []
  exact ⟨h.2.1.mpr (by decide), h.2.2 c2Env rfl (fun p hp => rfl)⟩

/-- C3: Transform-stage successes appear strictly in the declared script
order, a missing script is skipped leaving the state unchanged, a raising
script is skipped and the loop continues with the remaining scripts, and the
stage raises iff zero staging tables were successfully processed. -/
theorem C3_transform_isolation_and_fatality (env : SqlEnv) (st : Store) :
    (raised (stage_3_data_cleaning env st) = true ↔
       (transformationScripts.foldl (stage3Step env) (st, [])).2 = []) ∧
    ((transformationScripts.foldl (stage3Step env) (st, [])).2.Sublist
       (transformationScripts.map sqlBaseName)) ∧
    (∀ (acc : Store × List String) (name : String),
       env.scriptExists name = false → stage3Step env acc name = acc) ∧
    (∀ (name : String) (rest : List String) (s s' : Store) (acc : List String),
       env.scriptExists name = true → env.execSql name s = .error s' →
       (name :: rest).foldl (stage3Step env) (s, acc) =
         rest.foldl (stage3Step env) (s', acc)) := by
  refine ⟨stage3_error_iff env st, ?_,
    fun acc name h => stage3Step_skip_missing env acc name h,
    fun name rest s s' acc hex hsql =>
      stage3_raising_continues env name rest s s' acc hex hsql⟩
  rcases stage3_foldl_sublist env transformationScripts st [] with ⟨t, ht, hsub⟩
  rw [ht]
  simpa using hsub

theorem C3_transform_isolation_and_fatality_witness :
    raised (stage_3_data_cleaning c3Sql []) = true :=
  (C3_transform_isolation_and_fatality c3Sql []).1.mpr rfl

/-- C4: the Extraction stage records exactly the failing sources and never
aborts the run; for every scrape outcome the run proceeds to the Load
stage. -/
theorem C4_extraction_never_aborts (env : Env) (h : env.connectOk = true) :
    stage_1_web_scraping env.scrape =
      scraperNames.filter (fun n => scrapeFails (env.scrape n)) ∧
    Stage.loading ∈ (run env).stagesRun := by
  constructor
  · simpa [stage_1_web_scraping] using stage1_foldl_failed env.scrape scraperNames []
  · simp only [run, h, if_true]
    split
    · simp
    · split
      · simp
      · split
        · simp
        · split <;> simp

theorem C4_extraction_never_aborts_witness :
    stage_1_web_scraping c4Env.scrape = ["IPO Metadata"] ∧
    Stage.loading ∈ (run c4Env).stagesRun := by
  have h := C4_extraction_never_aborts c4Env rfl
  exact ⟨h.1.trans (by decide), h.2⟩

/-- C5 counterexample: a mart-script execution that leaves behind exactly
the table named by the script's base identifier (`mart_ipo_analytics`)
still fails the Mart stage, because the row count is queried on
`mart_ipo_analytics_1` instead. -/
theorem C5_mart_query_not_base_identifier :
    stripSqlExt martScriptName = "mart_ipo_analytics" ∧
    Store.lookup [("mart_ipo_analytics", 5)] (stripSqlExt martScriptName) = some 5 ∧
    martCountTable ≠ stripSqlExt martScriptName ∧
    stage_4_create_analytics_mart c5Sql [] = .error [("mart_ipo_analytics", 5)] := by
  refine ⟨by decide, by decide, by decide, rfl⟩

/-- C5 amended: for each of the three staging scripts, the queried table
name (`script_name.replace('.sql','')`) equals the filename with its
`.sql` extension removed; for the mart script the queried table is the
literal `mart_ipo_analytics_1`, which is not the script's base
identifier. -/
theorem C5_staging_query_names_amended (name : String)
    (h : name ∈ transformationScripts) :
    sqlBaseName name = stripSqlExt name ∧
    martCountTable ≠ stripSqlExt martScriptName := by
  fin_cases h <;> exact ⟨by decide, by decide⟩

theorem C5_staging_query_names_amended_witness :
    sqlBaseName "stg_past_ipo_table.sql" = stripSqlExt "stg_past_ipo_table.sql" ∧
    martCountTable ≠ stripSqlExt martScriptName :=
  C5_staging_query_names_amended "stg_past_ipo_table.sql" (by decide)

/-- C6: the Mart stage is fail-fast: a missing script file raises, an
execution error re-raises, and the stage succeeds exactly when the script
exists, executes, and the mart table's row count is readable — no partial
success. -/
theorem C6_mart_build_fail_fast (env : SqlEnv) (st : Store) :
    (env.scriptExists martScriptName = false →
       stage_4_create_analytics_mart env st = .error st) ∧
    (∀ st', env.scriptExists martScriptName = true →
       env.execSql martScriptName st = .error st' →
       stage_4_create_analytics_mart env st = .error st') ∧
    (∀ st', stage_4_create_analytics_mart env st = .ok st' ↔
       (env.scriptExists martScriptName = true ∧
        env.execSql martScriptName st = .ok st' ∧
        (Store.lookup st' martCountTable).isSome = true)) := by
  refine ⟨fun h => by simp [stage_4_create_analytics_mart, h], ?_, ?_⟩
  · intro st' hex hsql
    simp [stage_4_create_analytics_mart, hex, hsql]
  · intro st'
    constructor
    · intro h
      by_cases hex : env.scriptExists martScriptName
      · rcases hsql : env.execSql martScriptName st with s | s
        · simp [stage_4_create_analytics_mart, hex, hsql] at h
        · rcases hlk : Store.lookup s martCountTable with _ | n
          · simp [stage_4_create_analytics_mart, hex, hsql, hlk] at h
          · simp only [stage_4_create_analytics_mart, hex, if_true, hsql, hlk] at h
            injection h with h2
            subst h2
            exact ⟨hex, rfl, by simp [hlk]⟩
      · simp [stage_4_create_analytics_mart, hex] at h
    · rintro ⟨hex, hsql, hlk⟩
      rcases hv : Store.lookup st' martCountTable with _ | n
      · rw [hv] at hlk
        simp at hlk
      · simp [stage_4_create_analytics_mart, hex, hsql, hv]

theorem C6_mart_build_fail_fast_witness :
    stage_4_create_analytics_mart c6Sql [] = .error [] :=
  (C6_mart_build_fail_fast c6Sql []).1 rfl

/-- C7: a present file's table is created fresh with exactly the file's row
count regardless of prior store contents (drop-then-create, never append),
so running the Load stage twice over identical files leaves every raw
table's row count unchanged. -/
theorem C7_load_idempotent_rebuild (fs : String → FileState) (st : Store) :
    (∀ p ∈ csvMappings, ∀ n, fs p.1 = FileState.readable n →
       Store.lookup (csvMappings.foldl (stage2Step fs) (st, [])).1 p.2 = some n) ∧
    (∀ p ∈ csvMappings,
       Store.lookup
         (csvMappings.foldl (stage2Step fs)
           ((csvMappings.foldl (stage2Step fs) (st, [])).1, [])).1 p.2 =
       Store.lookup (csvMappings.foldl (stage2Step fs) (st, [])).1 p.2) := by
  constructor
  · intro p hp n hn
    rw [stage2_lookup_final fs st p hp, hn]
  · intro p hp
    rw [stage2_lookup_final fs ((csvMappings.foldl (stage2Step fs) (st, [])).1) p hp,
        stage2_lookup_final fs st p hp]
    cases hn : fs p.1 <;> simp [hn]

theorem C7_load_idempotent_rebuild_witness :
    Store.lookup (csvMappings.foldl (stage2Step c7Fs) (([] : Store), [])).1
      "raw_past_ipo_table_1" = some 10 ∧
    Store.lookup
      (csvMappings.foldl (stage2Step c7Fs)
        ((csvMappings.foldl (stage2Step c7Fs) (([] : Store), [])).1, [])).1
      "raw_past_ipo_table_1" =
    Store.lookup (csvMappings.foldl (stage2Step c7Fs) (([] : Store), [])).1
      "raw_past_ipo_table_1" := by
  have h := C7_load_idempotent_rebuild c7Fs []
  exact ⟨h.1 ("ipo_metadata.csv", "raw_past_ipo_table_1") (by decide) 10 rfl,
    h.2 ("ipo_metadata.csv", "raw_past_ipo_table_1") (by decide)⟩

/-- C8: the export path embeds only the run's calendar date, so two clocks
with the same date yield the same target path; a failed `COPY` raises and
the run reports a fatal failure. -/
theorem C8_export_dated_path_and_fatal (c c' : Clock) (env : Env)
    (hd : c.date = c'.date) (hc : env.connectOk = true) (he : env.copyOk = false) :
    exportPath c = exportPath c' ∧
    raised (export_results env.copyOk env.clock) = true ∧
    (run env).ok = false := by
  refine ⟨by simp [exportPath, hd], by simp [export_results, he, raised], ?_⟩
  rcases hex : export_results env.copyOk env.clock with u | pth
  · simp only [run, hc, if_true]
    split
    · rfl
    · split
      · rfl
      · split
        · rfl
        · rw [hex]
  · rw [export_results, he] at hex
    simp at hex

theorem C8_export_dated_path_and_fatal_witness :
    exportPath ⟨"20260101", "093000"⟩ = exportPath ⟨"20260101", "174500"⟩ ∧
    raised (export_results c8Env.copyOk c8Env.clock) = true ∧
    (run c8Env).ok = false :=
  C8_export_dated_path_and_fatal ⟨"20260101", "093000"⟩ ⟨"20260101", "174500"⟩
    c8Env rfl rfl rfl

/-- C9: when the `CREATE TABLE` step raises after the `DROP TABLE IF EXISTS`
for a present file, the caught per-file failure leaves the store with no
table of that name (any pre-existing table is gone) and the pair out of
`loaded_tables`. -/
theorem C9_failed_create_leaves_table_dropped (fs : String → FileState)
    (st : Store) (loaded : List String) (p : String × String)
    (h : fs p.1 = FileState.unreadable) :
    (stage2Step fs (st, loaded) p).1 = Store.drop st p.2 ∧
    Store.lookup (stage2Step fs (st, loaded) p).1 p.2 = none ∧
    (stage2Step fs (st, loaded) p).2 = loaded := by
  refine ⟨by simp [stage2Step, h], ?_, by simp [stage2Step, h]⟩
  simp [stage2Step, h, Store.lookup_drop_same]

theorem C9_failed_create_leaves_table_dropped_witness :
    (stage2Step c9Fs ([("raw_past_ipo_table_1", 10)], [])
       ("ipo_metadata.csv", "raw_past_ipo_table_1")).1 =
      Store.drop [("raw_past_ipo_table_1", 10)] "raw_past_ipo_table_1" ∧
    Store.lookup
      (stage2Step c9Fs ([("raw_past_ipo_table_1", 10)], [])
        ("ipo_metadata.csv", "raw_past_ipo_table_1")).1
      "raw_past_ipo_table_1" = none ∧
    (stage2Step c9Fs ([("raw_past_ipo_table_1", 10)], [])
       ("ipo_metadata.csv", "raw_past_ipo_table_1")).2 = [] :=
  C9_failed_create_leaves_table_dropped c9Fs [("raw_past_ipo_table_1", 10)] []
    ("ipo_metadata.csv", "raw_past_ipo_table_1") rfl

/-- C10: a script counts as processed iff its file exists, its SQL batch
executes without raising, and the table named by its base identifier is
then present; if every successful execution leaves that table absent, the
stage raises its zero-tables fatal error. -/
theorem C10_processed_requires_derived_table (env : SqlEnv) :
    (∀ (st : Store) (acc : List String) (name : String),
       (stage3Step env (st, acc) name).2 = acc ++ [sqlBaseName name] ↔
         env.scriptExists name = true ∧
         ∃ st', env.execSql name st = .ok st' ∧
           (Store.lookup st' (sqlBaseName name)).isSome = true) ∧
    ((∀ nm ∈ transformationScripts, ∀ s s', env.execSql nm s = .ok s' →
        Store.lookup s' (sqlBaseName nm) = none) →
      ∀ st : Store, raised (stage_3_data_cleaning env st) = true) := by
  refine ⟨fun st acc name => stage3Step_adds_iff env st acc name, fun h st => ?_⟩
  exact (stage3_error_iff env st).mpr (stage3_all_tableless env _ h st [])

theorem C10_processed_requires_derived_table_witness :
    raised (stage_3_data_cleaning c10Sql []) = true := by
  refine (C10_processed_requires_derived_table c10Sql).2 ?_ []
  intro nm hnm s s' hok
  injection hok with h2
  subst h2
  fin_cases hnm <;> rfl

end IPOPipeline
